import Mathlib

/-
Verification of the configuration-flow engine in
homeassistant/config_manager.py.

This file shallowly embeds the data model and the operations of the
ConfigManager (entry list, in-progress flow map, step dispatch, debounced
persistence) and proves properties about them.  Python dicts holding JSON
style values are embedded as association lists with unique keys; exceptions
are embedded with Except; the event-loop timer used by the debounced save is
embedded as an explicit set of pending timer handles in the manager state.
-/

set_option autoImplicit false

/-- JSON style values: the opaque serializable payloads (titles, user input,
entry data, form fields) the engine moves around without inspecting. -/
inductive JsonValue where
  | null : JsonValue
  | bool (b : Bool) : JsonValue
  | num (n : Int) : JsonValue
  | str (s : String) : JsonValue
  | arr (xs : List JsonValue) : JsonValue
  deriving Repr

/-- Python equality test of a value against a string constant, as in
`result['type'] == RESULT_TYPE_FORM`: true exactly when the value is that
string (a non-string never equals a string in Python). -/
def JsonValue.eqStr : JsonValue → String → Bool
  | JsonValue.str s, t => s = t
  | _, _ => false

/-- Python dict with string keys and JSON style values, embedded as an
association list in insertion order (Python dicts preserve insertion order
and have unique keys). -/
def Dict : Type := List (String × JsonValue)

/-- Lookup of a key in a dict, as in Python `d.get(k)` / `d[k]`. -/
def dictGet (d : Dict) (k : String) : Option JsonValue :=
  match d with
  | [] => none
  | (k2, v) :: rest => if k2 = k then some v else dictGet rest k

/-- Exceptions the embedded code can raise. -/
inductive PyErr where
  /-- UnknownHandler: configure called for a domain with no registered factory. -/
  | unknownHandler : PyErr
  /-- UnknownStep: the handler has no method for the requested step; carries
  the domain and step id interpolated into the message of the source. -/
  | unknownStep (domain : String) (step_id : String) : PyErr
  /-- KeyError on a missing dict key `k`. -/
  | keyError (k : String) : PyErr
  /-- TypeError, e.g. iterating over None. -/
  | typeError : PyErr
  /-- AttributeError, e.g. None.append. -/
  | attributeError : PyErr
  /-- AssertionError from a failing `assert`. -/
  | assertionError : PyErr
  /-- FileNotFound condition of the durable store read. -/
  | fileNotFound : PyErr
  /-- Arbitrary error raised inside domain-supplied handler step code. -/
  | raised (msg : String) : PyErr
  deriving Repr, DecidableEq

/-- Removal of a key from a dict, as performed by Python `d.pop(k)` on a
dict (keys are unique, remaining insertion order is preserved). -/
def dictRemove (d : Dict) (k : String) : Dict :=
  List.filter (fun p => decide (p.1 ≠ k)) d

/-- Python `d.pop(k)` without default: returns the value and the dict
without the key, or raises KeyError when the key is absent. -/
def dictPop (d : Dict) (k : String) : Except PyErr (JsonValue × Dict) :=
  match dictGet d k with
  | none => Except.error (PyErr.keyError k)
  | some v => Except.ok (v, dictRemove d k)

/-- SOURCE_USER constant (line 12). -/
def SOURCE_USER : String := "user"

/-- SOURCE_DISCOVERY constant (line 13). -/
def SOURCE_DISCOVERY : String := "discovery"

/-- RESULT_TYPE_FORM constant (line 21). -/
def RESULT_TYPE_FORM : String := "form"

/-- RESULT_TYPE_CREATE_ENTRY constant (line 22). -/
def RESULT_TYPE_CREATE_ENTRY : String := "create_entry"

/-- RESULT_TYPE_ABORT constant (line 23). -/
def RESULT_TYPE_ABORT : String := "abort"

/-- ConfigEntry (lines 30-53): a committed configuration entry. -/
structure ConfigEntry where
  config_id : String
  version : Nat
  domain : String
  title : JsonValue
  data : JsonValue
  source : String
  deriving Repr

/-- Serialized form of a ConfigEntry: the Python dict built by `as_dict`
with keys config_id, version, domain, title, data, source. -/
structure EntryDict where
  config_id : String
  version : Nat
  domain : String
  title : JsonValue
  data : JsonValue
  source : String
  deriving Repr

/-- ConfigEntry.as_dict (lines 55-64). -/
def ConfigEntry.as_dict (e : ConfigEntry) : EntryDict :=
  { config_id := e.config_id
  , version := e.version
  , domain := e.domain
  , title := e.title
  , data := e.data
  , source := e.source }

/-- Reconstruction `ConfigEntry(**entry)` used by async_load (line 164). -/
def ConfigEntry.ofDict (d : EntryDict) : ConfigEntry :=
  { config_id := d.config_id
  , version := d.version
  , domain := d.domain
  , title := d.title
  , data := d.data
  , source := d.source }

/-- Mutable state of one flow handler instance: the attributes the manager
sets on the freshly constructed handler object (lines 122-124, 190-195)
plus the handler-private state `priv` the concrete handler keeps on itself
between steps. -/
structure FlowInstance (σ : Type) where
  flow_id : String
  domain : String
  source : String
  version : Nat
  priv : σ
  deriving Repr

/-- A concrete flow-handler class: declared version and source class
attributes (lines 190-195), the initial handler-private state produced by
`handler()`, and the table of step methods, keyed by full method name
(the source dispatches on the string `async_step_` + step_id through
hasattr/getattr, lines 126-133).  A step takes the instance state and the
optional user input and either returns the updated instance together with
a result dict, or raises. -/
structure Handler (σ : Type) where
  version : Nat
  source : String
  initPriv : σ
  steps : String → Option (FlowInstance σ → Option JsonValue →
            Except PyErr (FlowInstance σ × Dict))

/-- State of a ConfigManager (lines 82-87) together with its environment:
`store` is the content of the durable store file (none when the file does
not exist), `writes` the log of completed durable writes, `pending` the
set of armed event-loop timer handles created by `loop.call_later`, and
`next_timer` a fresh-handle counter.  `sched_save` is the `_sched_save`
attribute: the handle of the currently scheduled save, if any. -/
structure ConfigManager (σ : Type) where
  entries : Option (List ConfigEntry)
  progress : List (String × FlowInstance σ)
  sched_save : Option Nat
  pending : List Nat
  next_timer : Nat
  store : Option (List EntryDict)
  writes : List (List EntryDict)

/-- ConfigManager.__init__ (lines 82-87): entries is None, progress empty,
no scheduled save.  The durable store content is the ambient file state. -/
def freshManager {σ : Type} (store0 : Option (List EntryDict)) : ConfigManager σ :=
  { entries := none
  , progress := []
  , sched_save := none
  , pending := []
  , next_timer := 0
  , store := store0
  , writes := [] }

/-- Lookup in an association-list map (Python `self.progress.get(flow_id)`). -/
def assocGet {α : Type} (xs : List (String × α)) (k : String) : Option α :=
  match xs with
  | [] => none
  | (k2, v) :: rest => if k2 = k then some v else assocGet rest k

/-- Assignment `m[k] = v` on a Python dict: replaces the value in place when
the key is present (keys stay unique), otherwise appends the new binding. -/
def assocSet {α : Type} (xs : List (String × α)) (k : String) (v : α) :
    List (String × α) :=
  match xs with
  | [] => [(k, v)]
  | (k2, w) :: rest =>
      if k2 = k then (k, v) :: rest else (k2, w) :: assocSet rest k v

/-- Removal `m.pop(k)` on a Python dict: drops the binding of `k` (keys are
unique), keeping the order of the remaining bindings. -/
def assocRemove {α : Type} (xs : List (String × α)) (k : String) :
    List (String × α) :=
  List.filter (fun p => decide (p.1 ≠ k)) xs

/-- ConfigManager.async_domains (lines 89-99): the loop keeps a `seen` set
and a `result` list that always hold the same domains, appending each
domain on first sight; iterating over `self.entries` raises TypeError when
entries is still None. -/
def async_domains {σ : Type} (m : ConfigManager σ) :
    Except PyErr (List String) :=
  match m.entries with
  | none => Except.error PyErr.typeError
  | some es => Except.ok (domainsLoop es [])
where
  /-- Loop body of async_domains over the remaining entries, carrying the
  result list (membership in it coincides with membership in `seen`). -/
  domainsLoop : List ConfigEntry → List String → List String
    | [], result => result
    | e :: rest, result =>
        domainsLoop rest
          (if e.domain ∈ result then result else result ++ [e.domain])

/-- ConfigManager.async_entries (lines 101-103): list comprehension
filtering the entries by domain; iterating None raises TypeError. -/
def async_entries {σ : Type} (m : ConfigManager σ) (domain : String) :
    Except PyErr (List ConfigEntry) :=
  match m.entries with
  | none => Except.error PyErr.typeError
  | some es => Except.ok (List.filter (fun e => decide (e.domain = domain)) es)

/-- ConfigManager.async_schedule_save (lines 166-174): cancel the pending
save timer, if any, then arm a fresh `call_later` timer and remember its
handle in `_sched_save`. -/
def async_schedule_save {σ : Type} (m : ConfigManager σ) : ConfigManager σ :=
  let pending1 :=
    match m.sched_save with
    | none => m.pending
    | some t => List.erase m.pending t
  { m with
    pending := pending1 ++ [m.next_timer]
  , sched_save := some m.next_timer
  , next_timer := m.next_timer + 1 }

/-- Flow resolution part of async_configure (lines 114-124): use the flow
stored under the supplied flow_id if there is one; otherwise create a fresh
handler instance under a fresh id (`uuid4().hex`, supplied here as the
`fresh` argument since it is external randomness) and set its hass, domain
and flow_id attributes.  Returns the flow id, the instance, and the manager
with the progress map updated. -/
def resolveFlow {σ : Type} (handler : Handler σ) (m : ConfigManager σ)
    (flow_id : Option String) (fresh : String) (domain : String) :
    String × FlowInstance σ × ConfigManager σ :=
  let found : Option (String × FlowInstance σ) :=
    match flow_id with
    | none => none
    | some fid => Option.map (fun f => (fid, f)) (assocGet m.progress fid)
  match found with
  | some (fid, f) => (fid, f, m)
  | none =>
      let f : FlowInstance σ :=
        { flow_id := fresh
        , domain := domain
        , source := handler.source
        , version := handler.version
        , priv := handler.initPriv }
      (fresh, f, { m with progress := assocSet m.progress fresh f })

/-- Result interpretation part of async_configure (lines 135-153), entered
with the step result `res` and the post-step instance `flow2` already
stored back in the progress map (the Python step mutates the shared
instance in place).  Reads `result['type']`; on form returns the envelope
and leaves the flow in progress; otherwise pops the flow, returns the
envelope on abort, and on create_entry builds a ConfigEntry from
`result['title']` and `result.pop('data')` (title is read first: Python
evaluates the constructor arguments left to right), appends it to
`self.entries` (AttributeError when entries is None) and schedules a save,
returning the envelope as mutated by the pop. -/
def interpretResult {σ : Type} (domain : String) (fid : String)
    (flow2 : FlowInstance σ) (res : Dict) (m2 : ConfigManager σ) :
    ConfigManager σ × Except PyErr Dict :=
  match dictGet res "type" with
  | none => (m2, Except.error (PyErr.keyError "type"))
  | some ty =>
    if JsonValue.eqStr ty RESULT_TYPE_FORM then
      (m2, Except.ok res)
    else
      let m3 := { m2 with progress := assocRemove m2.progress fid }
      if JsonValue.eqStr ty RESULT_TYPE_ABORT then
        (m3, Except.ok res)
      else
        match dictGet res "title" with
        | none => (m3, Except.error (PyErr.keyError "title"))
        | some tv =>
          match dictPop res "data" with
          | Except.error e => (m3, Except.error e)
          | Except.ok (dv, res2) =>
            match m3.entries with
            | none => (m3, Except.error PyErr.attributeError)
            | some es =>
              let entry : ConfigEntry :=
                { config_id := flow2.flow_id
                , version := flow2.version
                , domain := domain
                , title := tv
                , data := dv
                , source := flow2.source }
              (async_schedule_save { m3 with entries := some (es ++ [entry]) },
               Except.ok res2)

/-- Step dispatch part of async_configure (lines 126-133): build the method
name `async_step_` + step_id; when the handler lacks the method, pop the
flow and raise UnknownStep; otherwise run the step.  A raising step
propagates its error with the progress map as resolved; a returning step
stores the mutated instance back (in Python the map already holds the
mutated object) and hands over to result interpretation. -/
def configureStep {σ : Type} (handler : Handler σ) (domain : String)
    (step_id : String) (user_input : Option JsonValue) (fid : String)
    (flow : FlowInstance σ) (m1 : ConfigManager σ) :
    ConfigManager σ × Except PyErr Dict :=
  match handler.steps (String.append "async_step_" step_id) with
  | none =>
      ({ m1 with progress := assocRemove m1.progress fid },
       Except.error (PyErr.unknownStep domain step_id))
  | some step =>
    match step flow user_input with
    | Except.error e => (m1, Except.error e)
    | Except.ok (flow2, res) =>
        interpretResult domain fid flow2 res
          { m1 with progress := assocSet m1.progress fid flow2 }

/-- ConfigManager.async_configure (lines 105-153): handler lookup in the
HANDLERS registry (passed here as the function `H`), flow resolution, step
dispatch and result interpretation.  Returns the manager state as left
behind by the call together with the returned envelope or the raised
error. -/
def async_configure {σ : Type} (H : String → Option (Handler σ))
    (m : ConfigManager σ) (domain : String) (flow_id : Option String)
    (step_id : String) (user_input : Option JsonValue) (fresh : String) :
    ConfigManager σ × Except PyErr Dict :=
  match H domain with
  | none => (m, Except.error PyErr.unknownHandler)
  | some handler =>
    let r := resolveFlow handler m flow_id fresh domain
    configureStep handler domain step_id user_input r.1 r.2.1 r.2.2

/-- Modelled from the spec: the durable store read primitive `load_json`
(homeassistant/util/json.py is not under src/).  Per the spec it returns
the stored records exactly as written, in order, and fails with a
"not found" condition when the file is missing. -/
def load_json (store : Option (List EntryDict)) :
    Except PyErr (List EntryDict) :=
  match store with
  | none => Except.error PyErr.fileNotFound
  | some doc => Except.ok doc

/-- Modelled from the spec: the durable store write primitive `save_json`
(homeassistant/util/json.py is not under src/).  Per the spec it replaces
the stored document as a single unit. -/
def save_json (doc : List EntryDict) : Option (List EntryDict) :=
  some doc

/-- ConfigManager._async_save (lines 176-183): clear the `_sched_save`
handle, serialize the entries with as_dict (iterating None raises
TypeError) and write them to the store, logging the completed write. -/
def private_async_save {σ : Type} (m : ConfigManager σ) :
    ConfigManager σ × Except PyErr Unit :=
  let m1 := { m with sched_save := none }
  match m1.entries with
  | none => (m1, Except.error PyErr.typeError)
  | some es =>
      let doc := List.map ConfigEntry.as_dict es
      ({ m1 with store := save_json doc, writes := m1.writes ++ [doc] },
       Except.ok ())

/-- ConfigManager.async_load (lines 155-164).  The body begins with a bare
`assert False` (line 158), which raises AssertionError before any of the
following lines run; the remaining lines are transcribed below the guard,
faithful to the source: when the store file is missing, entries is set to
the empty list, and then load_json is called unconditionally (there is no
early return) and its records are rebuilt into ConfigEntry values. -/
def async_load {σ : Type} (m : ConfigManager σ) :
    ConfigManager σ × Except PyErr Unit :=
  if (false : Bool) then
    let m1 := if m.store.isNone then { m with entries := some [] } else m
    match load_json m1.store with
    | Except.error e => (m1, Except.error e)
    | Except.ok doc =>
        ({ m1 with entries := some (List.map ConfigEntry.ofDict doc) },
         Except.ok ())
  else
    (m, Except.error PyErr.assertionError)

/-- Event-loop firing of a `call_later` timer handle `t`: a cancelled or
unknown handle does nothing; an armed handle is consumed and runs the
scheduled `_async_save` job. -/
def fireTimer {σ : Type} (m : ConfigManager σ) (t : Nat) :
    ConfigManager σ × Except PyErr Unit :=
  if t ∈ m.pending then
    private_async_save { m with pending := List.erase m.pending t }
  else
    (m, Except.ok ())

/-- ConfigFlowHandler.async_show_form (lines 197-210): builds the form
result dict; the flow id is injected from the instance.  The optional
keyword arguments of the source (description, data_schema, errors,
total_steps, defaulting to None) are passed explicitly here. -/
def async_show_form {σ : Type} (f : FlowInstance σ) (title : JsonValue)
    (step_id : JsonValue) (description : JsonValue) (data_schema : JsonValue)
    (errors : JsonValue) (total_steps : JsonValue) : Dict :=
  [ ("type", JsonValue.str RESULT_TYPE_FORM)
  , ("flow_id", JsonValue.str f.flow_id)
  , ("title", title)
  , ("step_id", step_id)
  , ("description", description)
  , ("data_schema", data_schema)
  , ("errors", errors)
  , ("total_steps", total_steps) ]

/-- ConfigFlowHandler.async_create_entry (lines 212-220): builds the
create_entry result dict. -/
def async_create_entry {σ : Type} (f : FlowInstance σ) (title : JsonValue)
    (data : JsonValue) : Dict :=
  [ ("type", JsonValue.str RESULT_TYPE_CREATE_ENTRY)
  , ("flow_id", JsonValue.str f.flow_id)
  , ("title", title)
  , ("data", data) ]

/-- ConfigFlowHandler.async_abort (lines 222-229): builds the abort result
dict. -/
def async_abort {σ : Type} (f : FlowInstance σ) (reason : JsonValue) : Dict :=
  [ ("type", JsonValue.str RESULT_TYPE_ABORT)
  , ("flow_id", JsonValue.str f.flow_id)
  , ("reason", reason) ]

/-- Operations that can hit a manager over time: a scheduleSave request, the
event loop firing a timer handle, or a configure call.  Used to describe the
reachable states for the debounce property. -/
inductive MgrOp where
  | schedule : MgrOp
  | fire (t : Nat) : MgrOp
  | configure (domain : String) (flow_id : Option String) (step_id : String)
      (user_input : Option JsonValue) (fresh : String) : MgrOp

/-- State reached after one operation (errors surface to the respective
caller and leave the state as the operation left it). -/
def applyOp {σ : Type} (H : String → Option (Handler σ))
    (m : ConfigManager σ) : MgrOp → ConfigManager σ
  | MgrOp.schedule => async_schedule_save m
  | MgrOp.fire t => (fireTimer m t).1
  | MgrOp.configure d fid sid inp fr => (async_configure H m d fid sid inp fr).1

/-- State reached after a sequence of operations. -/
def applyOps {σ : Type} (H : String → Option (Handler σ))
    (ops : List MgrOp) (m : ConfigManager σ) : ConfigManager σ :=
  List.foldl (applyOp H) m ops

/-- N-fold scheduleSave burst. -/
def scheduleN {σ : Type} : Nat → ConfigManager σ → ConfigManager σ
  | 0, m => m
  | n + 1, m => scheduleN n (async_schedule_save m)

/-- Timer invariant: the armed call_later handles are exactly the handle
remembered in `_sched_save` — in particular at most one save timer pends. -/
def TimerInv {σ : Type} (m : ConfigManager σ) : Prop :=
  m.pending = Option.toList m.sched_save

/-- Step method async_step_init of the two-step scenario handler of the
spec (fed no input it shows the init form; fed input it stores the input
on the instance and continues with the second form, as the test handler
does by delegating to the second step). -/
def initStep : FlowInstance JsonValue → Option JsonValue →
    Except PyErr (FlowInstance JsonValue × Dict) :=
  fun f inp =>
    match inp with
    | none =>
        Except.ok (f, async_show_form f (JsonValue.str "title")
          (JsonValue.str "init") JsonValue.null JsonValue.null
          JsonValue.null JsonValue.null)
    | some v =>
        let f2 := { f with priv := v }
        Except.ok (f2, async_show_form f2 (JsonValue.str "title")
          (JsonValue.str "second") JsonValue.null JsonValue.null
          JsonValue.null JsonValue.null)

/-- Step method async_step_second of the two-step scenario handler: fed
input it creates the entry titled T with data [init_input, second_input];
fed no input it shows the second form. -/
def secondStep : FlowInstance JsonValue → Option JsonValue →
    Except PyErr (FlowInstance JsonValue × Dict) :=
  fun f inp =>
    match inp with
    | none =>
        Except.ok (f, async_show_form f (JsonValue.str "title")
          (JsonValue.str "second") JsonValue.null JsonValue.null
          JsonValue.null JsonValue.null)
    | some v =>
        Except.ok (f, async_create_entry f (JsonValue.str "T")
          (JsonValue.arr [f.priv, v]))

/-- The two-step scenario handler class, declared version 1, default
source. -/
def twoStepHandler : Handler JsonValue :=
  { version := 1
  , source := SOURCE_USER
  , initPriv := JsonValue.null
  , steps := fun name =>
      if name = "async_step_init" then some initStep
      else if name = "async_step_second" then some secondStep
      else none }

/-- Registry holding the scenario handler under the domain `test`. -/
def testRegistry : String → Option (Handler JsonValue) :=
  fun d => if d = "test" then some twoStepHandler else none

/-- Manager state of the test fixture: a fresh manager whose entries were
initialized to the empty list. -/
def scnM0 : ConfigManager JsonValue :=
  { freshManager none with entries := some [] }

/-- First scenario call: configure the domain `test` with no flow id (a
fresh flow, id f1, is created) and the default step init without input. -/
def scnCall1 : ConfigManager JsonValue × Except PyErr Dict :=
  async_configure testRegistry scnM0 "test" none "init" none "f1"

/-- Second scenario call: step init of flow f1 fed the input A. -/
def scnCall2 : ConfigManager JsonValue × Except PyErr Dict :=
  async_configure testRegistry scnCall1.1 "test" (some "f1") "init"
    (some (JsonValue.str "A")) "g2"

/-- Third scenario call: step second of flow f1 fed the input B. -/
def scnCall3 : ConfigManager JsonValue × Except PyErr Dict :=
  async_configure testRegistry scnCall2.1 "test" (some "f1") "second"
    (some (JsonValue.str "B")) "g3"

/-- Flow instance of the scenario flow after the second call stored the
input A in its private state. -/
def scnFlowA : FlowInstance JsonValue :=
  { flow_id := "f1"
  , domain := "test"
  , source := SOURCE_USER
  , version := 1
  , priv := JsonValue.str "A" }

/-- Envelope returned to the caller by the third scenario call: the
create_entry dict with its data key popped. -/
def scnFinalDict : Dict :=
  [ ("type", JsonValue.str RESULT_TYPE_CREATE_ENTRY)
  , ("flow_id", JsonValue.str "f1")
  , ("title", JsonValue.str "T") ]

/-- Entry committed by the third scenario call. -/
def scnEntry : ConfigEntry :=
  { config_id := "f1"
  , version := 1
  , domain := "test"
  , title := JsonValue.str "T"
  , data := JsonValue.arr [JsonValue.str "A", JsonValue.str "B"]
  , source := SOURCE_USER }

/-- Fresh flow instance created by the first scenario call. -/
def scnFlow0 : FlowInstance JsonValue :=
  { flow_id := "f1"
  , domain := "test"
  , source := SOURCE_USER
  , version := 1
  , priv := JsonValue.null }

/-- Manager state right after the first scenario call resolved (created)
its flow, before the step ran. -/
def scnM0F : ConfigManager JsonValue :=
  { scnM0 with progress := [("f1", scnFlow0)] }

/-- Lookup after setting a key finds the value just set. -/
theorem assocGet_set_self {α : Type} (xs : List (String × α)) (k : String)
    (v : α) : assocGet (assocSet xs k v) k = some v := by
  induction xs with
  | nil => simp [assocGet, assocSet]
  | cons p rest ih =>
      by_cases h : p.1 = k
      · simp [assocSet, assocGet, h]
      · simp only [assocSet, assocGet, h, if_false]
        simpa [assocGet, h] using ih

/-- Lookup after removing a key finds nothing. -/
theorem assocGet_remove_self {α : Type} (xs : List (String × α))
    (k : String) : assocGet (assocRemove xs k) k = none := by
  induction xs with
  | nil => simp [assocGet, assocRemove]
  | cons p rest ih =>
      by_cases h : p.1 = k
      · simpa [assocRemove, h] using ih
      · simp only [assocRemove, List.filter] at ih ⊢
        simp only [h, decide_not]
        simpa [assocGet, h] using ih

/-- Removing a key from a dict leaves a dict in which the key is absent. -/
theorem dictGet_remove_self (d : Dict) (k : String) :
    dictGet (dictRemove d k) k = none := by
  induction d with
  | nil => simp [dictGet, dictRemove]
  | cons p rest ih =>
      by_cases h : p.1 = k
      · simpa [dictRemove, h] using ih
      · simp only [dictRemove, List.filter] at ih ⊢
        simp only [h, decide_not]
        simpa [dictGet, h] using ih

/-- Popping a key from a dict leaves a dict in which the key is absent. -/
theorem dictPop_get_none (d : Dict) (k : String) (v : JsonValue) (d2 : Dict)
    (h : dictPop d k = Except.ok (v, d2)) : dictGet d2 k = none := by
  unfold dictPop at h
  cases hg : dictGet d k with
  | none => rw [hg] at h; exact absurd h (by simp)
  | some w =>
      rw [hg] at h
      have hd2 : d2 = dictRemove d k := by
        have h1 : (w, dictRemove d k) = (v, d2) := by
          injection h
        have := congrArg Prod.snd h1
        simpa using this.symm
      rw [hd2]
      exact dictGet_remove_self d k

/-- Flow resolution leaves the resolved flow stored in the progress map
under the resolved id (either it was already there, or it was just
created and inserted). -/
theorem resolveFlow_progress_get {σ : Type} (h : Handler σ)
    (m : ConfigManager σ) (fid? : Option String) (fresh domain : String)
    (fid : String) (flow : FlowInstance σ) (m1 : ConfigManager σ)
    (hres : resolveFlow h m fid? fresh domain = (fid, flow, m1)) :
    assocGet m1.progress fid = some flow := by
  cases fid? with
  | none =>
      simp only [resolveFlow, Prod.mk.injEq] at hres
      obtain ⟨rfl, rfl, rfl⟩ := hres
      exact assocGet_set_self m.progress fresh _
  | some k =>
      cases hg : assocGet m.progress k with
      | none =>
          simp only [resolveFlow, hg, Option.map_none', Prod.mk.injEq] at hres
          obtain ⟨rfl, rfl, rfl⟩ := hres
          exact assocGet_set_self m.progress fresh _
      | some fl =>
          simp only [resolveFlow, hg, Option.map_some', Prod.mk.injEq] at hres
          obtain ⟨rfl, rfl, rfl⟩ := hres
          exact hg

/-- Flow resolution touches only the progress map: every other field of the
manager is unchanged. -/
theorem resolveFlow_state_fields {σ : Type} (h : Handler σ)
    (m : ConfigManager σ) (fid? : Option String) (fresh domain : String)
    (fid : String) (flow : FlowInstance σ) (m1 : ConfigManager σ)
    (hres : resolveFlow h m fid? fresh domain = (fid, flow, m1)) :
    m1.entries = m.entries ∧ m1.sched_save = m.sched_save ∧
    m1.pending = m.pending ∧ m1.next_timer = m.next_timer ∧
    m1.store = m.store ∧ m1.writes = m.writes := by
  cases fid? with
  | none =>
      simp only [resolveFlow, Prod.mk.injEq] at hres
      obtain ⟨rfl, rfl, rfl⟩ := hres
      exact ⟨rfl, rfl, rfl, rfl, rfl, rfl⟩
  | some k =>
      cases hg : assocGet m.progress k with
      | none =>
          simp only [resolveFlow, hg, Option.map_none', Prod.mk.injEq] at hres
          obtain ⟨rfl, rfl, rfl⟩ := hres
          exact ⟨rfl, rfl, rfl, rfl, rfl, rfl⟩
      | some fl =>
          simp only [resolveFlow, hg, Option.map_some', Prod.mk.injEq] at hres
          obtain ⟨rfl, rfl, rfl⟩ := hres
          exact ⟨rfl, rfl, rfl, rfl, rfl, rfl⟩

/-- Once the handler and the flow are resolved, configure behaves as the
dispatch-and-interpret part on the resolved flow. -/
theorem configure_resolved {σ : Type} (H : String → Option (Handler σ))
    (m : ConfigManager σ) (domain : String) (fid? : Option String)
    (sid : String) (inp : Option JsonValue) (fresh : String)
    (h : Handler σ) (fid : String) (flow : FlowInstance σ)
    (m1 : ConfigManager σ)
    (hH : H domain = some h)
    (hres : resolveFlow h m fid? fresh domain = (fid, flow, m1)) :
    async_configure H m domain fid? sid inp fresh =
      configureStep h domain sid inp fid flow m1 := by
  simp only [async_configure, hH, hres]

/-- C7: configure of a domain with no registered handler factory fails with
UnknownHandler and returns the manager state entirely unchanged (the entry
list and the progress map in particular). -/
theorem c7_unknown_handler {σ : Type} (H : String → Option (Handler σ))
    (m : ConfigManager σ) (domain : String) (fid? : Option String)
    (sid : String) (inp : Option JsonValue) (fresh : String)
    (hH : H domain = none) :
    async_configure H m domain fid? sid inp fresh =
      (m, Except.error PyErr.unknownHandler) := by
  simp [async_configure, hH]

/-- Witness for C7 at the scenario registry, which has no handler for the
domain `other`. -/
theorem c7_witness :
    async_configure testRegistry scnM0 "other" none "init" none "f1" =
      (scnM0, Except.error PyErr.unknownHandler) :=
  c7_unknown_handler testRegistry scnM0 "other" none "init" none "f1" rfl

/-- C4: configure on a registered domain with a step id the handler lacks
fails with UnknownStep, and the flow id is no longer in the progress map
when the error surfaces: the call returns the resolved state with the flow
popped, and a lookup of the flow id in the returned progress map finds
nothing. -/
theorem c4_unknown_step {σ : Type} (H : String → Option (Handler σ))
    (m : ConfigManager σ) (domain : String) (fid? : Option String)
    (sid : String) (inp : Option JsonValue) (fresh : String)
    (h : Handler σ) (fid : String) (flow : FlowInstance σ)
    (m1 : ConfigManager σ)
    (hH : H domain = some h)
    (hres : resolveFlow h m fid? fresh domain = (fid, flow, m1))
    (hstep : h.steps (String.append "async_step_" sid) = none) :
    async_configure H m domain fid? sid inp fresh =
      ({ m1 with progress := assocRemove m1.progress fid },
        Except.error (PyErr.unknownStep domain sid)) ∧
    assocGet (async_configure H m domain fid? sid inp fresh).1.progress fid =
      none := by
  have heq := configure_resolved H m domain fid? sid inp fresh h fid flow m1 hH hres
  rw [heq]
  constructor
  · simp [configureStep, hstep]
  · simp only [configureStep, hstep]
    exact assocGet_remove_self m1.progress fid

/-- Witness for C4: the scenario handler has no step method named nope; the
call fails with UnknownStep and the freshly created flow f1 is removed
again, leaving the fixture state. -/
theorem c4_witness :
    async_configure testRegistry scnM0 "test" none "nope" none "f1" =
      ({ scnM0F with progress := assocRemove scnM0F.progress "f1" },
        Except.error (PyErr.unknownStep "test" "nope")) ∧
    assocGet (async_configure testRegistry scnM0 "test" none "nope" none
      "f1").1.progress "f1" = none :=
  c4_unknown_step testRegistry scnM0 "test" none "nope" none "f1"
    twoStepHandler "f1" scnFlow0 scnM0F rfl rfl rfl

/-- C8: when the dispatched step operation itself raises, the error
propagates to the configure caller unchanged, the entry list is unchanged,
and the flow is still in the progress map bound to the very instance it
was bound to before the step was dispatched, so the caller may retry the
same step. -/
theorem c8_step_error_propagates {σ : Type} (H : String → Option (Handler σ))
    (m : ConfigManager σ) (domain : String) (fid? : Option String)
    (sid : String) (inp : Option JsonValue) (fresh : String)
    (h : Handler σ) (fid : String) (flow : FlowInstance σ)
    (m1 : ConfigManager σ)
    (step : FlowInstance σ → Option JsonValue →
      Except PyErr (FlowInstance σ × Dict)) (e : PyErr)
    (hH : H domain = some h)
    (hres : resolveFlow h m fid? fresh domain = (fid, flow, m1))
    (hstep : h.steps (String.append "async_step_" sid) = some step)
    (hrun : step flow inp = Except.error e) :
    async_configure H m domain fid? sid inp fresh = (m1, Except.error e) ∧
    assocGet m1.progress fid = some flow ∧
    m1.entries = m.entries := by
  refine ⟨?_, resolveFlow_progress_get h m fid? fresh domain fid flow m1 hres,
    (resolveFlow_state_fields h m fid? fresh domain fid flow m1 hres).1⟩
  rw [configure_resolved H m domain fid? sid inp fresh h fid flow m1 hH hres]
  simp [configureStep, hstep, hrun]

/-- Step method of the raising scenario handler: raises on every call. -/
def raisingStep : FlowInstance JsonValue → Option JsonValue →
    Except PyErr (FlowInstance JsonValue × Dict) :=
  fun _ _ => Except.error (PyErr.raised "boom")

/-- Handler class whose init step always raises. -/
def raisingHandler : Handler JsonValue :=
  { version := 0
  , source := SOURCE_USER
  , initPriv := JsonValue.null
  , steps := fun name =>
      if name = "async_step_init" then some raisingStep else none }

/-- Registry holding the raising handler under the domain `fail`. -/
def failRegistry : String → Option (Handler JsonValue) :=
  fun d => if d = "fail" then some raisingHandler else none

/-- Fresh flow instance the manager creates for the raising handler. -/
def failFlow0 : FlowInstance JsonValue :=
  { flow_id := "f1"
  , domain := "fail"
  , source := SOURCE_USER
  , version := 0
  , priv := JsonValue.null }

/-- Manager state after resolving the raising flow. -/
def failM1 : ConfigManager JsonValue :=
  { scnM0 with progress := [("f1", failFlow0)] }

/-- Witness for C8: the raising step propagates its error, the flow stays
in the progress map, and the entry list is unchanged. -/
theorem c8_witness :
    async_configure failRegistry scnM0 "fail" none "init" none "f1" =
      (failM1, Except.error (PyErr.raised "boom")) ∧
    assocGet failM1.progress "f1" = some failFlow0 ∧
    failM1.entries = scnM0.entries :=
  c8_step_error_propagates failRegistry scnM0 "fail" none "init" none "f1"
    raisingHandler "f1" failFlow0 failM1 raisingStep (PyErr.raised "boom")
    rfl rfl rfl rfl

/-- C5: lifecycle of a flow across one configure call whose step returned
the envelope `res`.  A form envelope leaves the flow id in the progress
map bound to the instance exactly as the step left it (so state the
handler stored during this step is what the next step sees); an abort
envelope is returned with the flow id gone from the map; a create_entry
envelope likewise leaves the flow id absent the moment the call returns. -/
theorem c5_flow_lifecycle {σ : Type} (H : String → Option (Handler σ))
    (m : ConfigManager σ) (domain : String) (fid? : Option String)
    (sid : String) (inp : Option JsonValue) (fresh : String)
    (h : Handler σ) (fid : String) (flow : FlowInstance σ)
    (m1 : ConfigManager σ)
    (step : FlowInstance σ → Option JsonValue →
      Except PyErr (FlowInstance σ × Dict))
    (flow2 : FlowInstance σ) (res : Dict)
    (hH : H domain = some h)
    (hres : resolveFlow h m fid? fresh domain = (fid, flow, m1))
    (hstep : h.steps (String.append "async_step_" sid) = some step)
    (hrun : step flow inp = Except.ok (flow2, res)) :
    (dictGet res "type" = some (JsonValue.str RESULT_TYPE_FORM) →
      async_configure H m domain fid? sid inp fresh =
        ({ m1 with progress := assocSet m1.progress fid flow2 },
          Except.ok res) ∧
      assocGet (async_configure H m domain fid? sid inp fresh).1.progress
        fid = some flow2) ∧
    (dictGet res "type" = some (JsonValue.str RESULT_TYPE_ABORT) →
      (async_configure H m domain fid? sid inp fresh).2 = Except.ok res ∧
      assocGet (async_configure H m domain fid? sid inp fresh).1.progress
        fid = none) ∧
    (dictGet res "type" = some (JsonValue.str RESULT_TYPE_CREATE_ENTRY) →
      assocGet (async_configure H m domain fid? sid inp fresh).1.progress
        fid = none) := by
  rw [configure_resolved H m domain fid? sid inp fresh h fid flow m1 hH hres]
  simp only [configureStep, hstep, hrun]
  refine ⟨?_, ?_, ?_⟩
  · intro hty
    simp only [interpretResult, hty, JsonValue.eqStr, RESULT_TYPE_FORM]
    constructor
    · simp
    · simpa using assocGet_set_self m1.progress fid flow2
  · intro hty
    simp only [interpretResult, hty, JsonValue.eqStr, RESULT_TYPE_ABORT,
      RESULT_TYPE_FORM]
    constructor
    · simp
    · simpa using assocGet_remove_self (assocSet m1.progress fid flow2) fid
  · intro hty
    simp only [interpretResult, hty, JsonValue.eqStr,
      RESULT_TYPE_CREATE_ENTRY, RESULT_TYPE_FORM, RESULT_TYPE_ABORT]
    cases htv : dictGet res "title" with
    | none =>
        simpa [htv] using
          assocGet_remove_self (assocSet m1.progress fid flow2) fid
    | some tv =>
        cases hpop : dictPop res "data" with
        | error e =>
            simpa [htv, hpop] using
              assocGet_remove_self (assocSet m1.progress fid flow2) fid
        | ok pr =>
            cases hes : m1.entries with
            | none =>
                simpa [htv, hpop, hes] using
                  assocGet_remove_self (assocSet m1.progress fid flow2) fid
            | some es =>
                simpa [htv, hpop, hes, async_schedule_save] using
                  assocGet_remove_self (assocSet m1.progress fid flow2) fid

/-- Envelope of the first scenario call: the init form of the fresh flow. -/
def scnFormDict : Dict :=
  [ ("type", JsonValue.str RESULT_TYPE_FORM)
  , ("flow_id", JsonValue.str "f1")
  , ("title", JsonValue.str "title")
  , ("step_id", JsonValue.str "init")
  , ("description", JsonValue.null)
  , ("data_schema", JsonValue.null)
  , ("errors", JsonValue.null)
  , ("total_steps", JsonValue.null) ]

/-- Witness for C5 at the first scenario call, whose step yields a form
envelope: the flow stays in the progress map bound to the stepped
instance. -/
theorem c5_witness :
    (dictGet scnFormDict "type" = some (JsonValue.str RESULT_TYPE_FORM) →
      async_configure testRegistry scnM0 "test" none "init" none "f1" =
        ({ scnM0F with progress := assocSet scnM0F.progress "f1" scnFlow0 },
          Except.ok scnFormDict) ∧
      assocGet (async_configure testRegistry scnM0 "test" none "init" none
        "f1").1.progress "f1" = some scnFlow0) ∧
    (dictGet scnFormDict "type" = some (JsonValue.str RESULT_TYPE_ABORT) →
      (async_configure testRegistry scnM0 "test" none "init" none
        "f1").2 = Except.ok scnFormDict ∧
      assocGet (async_configure testRegistry scnM0 "test" none "init" none
        "f1").1.progress "f1" = none) ∧
    (dictGet scnFormDict "type" =
        some (JsonValue.str RESULT_TYPE_CREATE_ENTRY) →
      assocGet (async_configure testRegistry scnM0 "test" none "init" none
        "f1").1.progress "f1" = none) :=
  c5_flow_lifecycle testRegistry scnM0 "test" none "init" none "f1"
    twoStepHandler "f1" scnFlow0 scnM0F initStep scnFlow0 scnFormDict
    rfl rfl rfl rfl

/-- Shared computation of the create_entry branch of configure: with the
handler, flow, step and envelope resolved, the call appends exactly the
one entry built from the instance and the envelope, and returns the
envelope as left by the pop of its data key. -/
theorem configure_create_entry {σ : Type} (H : String → Option (Handler σ))
    (m : ConfigManager σ) (domain : String) (fid? : Option String)
    (sid : String) (inp : Option JsonValue) (fresh : String)
    (h : Handler σ) (fid : String) (flow : FlowInstance σ)
    (m1 : ConfigManager σ)
    (step : FlowInstance σ → Option JsonValue →
      Except PyErr (FlowInstance σ × Dict))
    (flow2 : FlowInstance σ) (res : Dict) (tv dv : JsonValue) (res2 : Dict)
    (es : List ConfigEntry)
    (hH : H domain = some h)
    (hres : resolveFlow h m fid? fresh domain = (fid, flow, m1))
    (hstep : h.steps (String.append "async_step_" sid) = some step)
    (hrun : step flow inp = Except.ok (flow2, res))
    (hty : dictGet res "type" = some (JsonValue.str RESULT_TYPE_CREATE_ENTRY))
    (htitle : dictGet res "title" = some tv)
    (hpop : dictPop res "data" = Except.ok (dv, res2))
    (hes : m1.entries = some es) :
    (async_configure H m domain fid? sid inp fresh).1.entries =
      some (es ++
        [{ config_id := flow2.flow_id
         , version := flow2.version
         , domain := domain
         , title := tv
         , data := dv
         , source := flow2.source }]) ∧
    (async_configure H m domain fid? sid inp fresh).2 = Except.ok res2 := by
  rw [configure_resolved H m domain fid? sid inp fresh h fid flow m1 hH hres]
  simp only [configureStep, hstep, hrun, interpretResult, hty,
    JsonValue.eqStr, RESULT_TYPE_FORM, RESULT_TYPE_ABORT,
    RESULT_TYPE_CREATE_ENTRY, htitle, hpop, hes]
  simp [async_schedule_save]

/-- C6: a configure call whose step yields a create_entry envelope appends
exactly one ConfigEntry to the entry list, whose id, version and source
are the flow instance's id, declared version and source, whose domain is
the configured domain, and whose title and data are the envelope's title
and data. -/
theorem c6_entry_fields {σ : Type} (H : String → Option (Handler σ))
    (m : ConfigManager σ) (domain : String) (fid? : Option String)
    (sid : String) (inp : Option JsonValue) (fresh : String)
    (h : Handler σ) (fid : String) (flow : FlowInstance σ)
    (m1 : ConfigManager σ)
    (step : FlowInstance σ → Option JsonValue →
      Except PyErr (FlowInstance σ × Dict))
    (flow2 : FlowInstance σ) (res : Dict) (tv dv : JsonValue) (res2 : Dict)
    (es : List ConfigEntry)
    (hH : H domain = some h)
    (hres : resolveFlow h m fid? fresh domain = (fid, flow, m1))
    (hstep : h.steps (String.append "async_step_" sid) = some step)
    (hrun : step flow inp = Except.ok (flow2, res))
    (hty : dictGet res "type" = some (JsonValue.str RESULT_TYPE_CREATE_ENTRY))
    (htitle : dictGet res "title" = some tv)
    (hpop : dictPop res "data" = Except.ok (dv, res2))
    (hes : m1.entries = some es) :
    (async_configure H m domain fid? sid inp fresh).1.entries =
      some (es ++
        [{ config_id := flow2.flow_id
         , version := flow2.version
         , domain := domain
         , title := tv
         , data := dv
         , source := flow2.source }]) :=
  (configure_create_entry H m domain fid? sid inp fresh h fid flow m1 step
    flow2 res tv dv res2 es hH hres hstep hrun hty htitle hpop hes).1

/-- Envelope built by the second step of the scenario flow before the
manager pops its data key. -/
def scnCreateDict : Dict :=
  [ ("type", JsonValue.str RESULT_TYPE_CREATE_ENTRY)
  , ("flow_id", JsonValue.str "f1")
  , ("title", JsonValue.str "T")
  , ("data", JsonValue.arr [JsonValue.str "A", JsonValue.str "B"]) ]

/-- Witness for C6 at the third scenario call: the sole committed entry
carries id f1, version 1, domain test, title T, data [A, B] and source
user. -/
theorem c6_witness :
    (async_configure testRegistry scnCall2.1 "test" (some "f1") "second"
      (some (JsonValue.str "B")) "g3").1.entries = some [scnEntry] :=
  c6_entry_fields testRegistry scnCall2.1 "test" (some "f1") "second"
    (some (JsonValue.str "B")) "g3" twoStepHandler "f1" scnFlowA scnCall2.1
    secondStep scnFlowA scnCreateDict (JsonValue.str "T")
    (JsonValue.arr [JsonValue.str "A", JsonValue.str "B"]) scnFinalDict []
    rfl rfl rfl rfl rfl rfl rfl rfl

/-- Counterexample to C2 as stated: in the two-step scenario fed A then B,
the envelope returned by the completing call has no data key at all (the
manager popped it into the ConfigEntry before returning), so its data does
not equal [A, B]; the entry list does hold exactly one entry with that
data. -/
theorem c2_counterexample :
    scnCall3.2 = Except.ok scnFinalDict ∧
    dictGet scnFinalDict "data" = none ∧
    scnCall3.1.entries = some [scnEntry] :=
  ⟨rfl, rfl, rfl⟩

/-- C2 as amended: the value returned by a completing configure call is
the create_entry envelope with its data key removed (the pop transfers the
data into the committed entry), and the entry list gains exactly one entry
holding that data. -/
theorem c2_envelope_data_popped {σ : Type} (H : String → Option (Handler σ))
    (m : ConfigManager σ) (domain : String) (fid? : Option String)
    (sid : String) (inp : Option JsonValue) (fresh : String)
    (h : Handler σ) (fid : String) (flow : FlowInstance σ)
    (m1 : ConfigManager σ)
    (step : FlowInstance σ → Option JsonValue →
      Except PyErr (FlowInstance σ × Dict))
    (flow2 : FlowInstance σ) (res : Dict) (tv dv : JsonValue) (res2 : Dict)
    (es : List ConfigEntry)
    (hH : H domain = some h)
    (hres : resolveFlow h m fid? fresh domain = (fid, flow, m1))
    (hstep : h.steps (String.append "async_step_" sid) = some step)
    (hrun : step flow inp = Except.ok (flow2, res))
    (hty : dictGet res "type" = some (JsonValue.str RESULT_TYPE_CREATE_ENTRY))
    (htitle : dictGet res "title" = some tv)
    (hpop : dictPop res "data" = Except.ok (dv, res2))
    (hes : m1.entries = some es) :
    (async_configure H m domain fid? sid inp fresh).2 = Except.ok res2 ∧
    dictGet res2 "data" = none ∧
    (async_configure H m domain fid? sid inp fresh).1.entries =
      some (es ++
        [{ config_id := flow2.flow_id
         , version := flow2.version
         , domain := domain
         , title := tv
         , data := dv
         , source := flow2.source }]) := by
  have hmain := configure_create_entry H m domain fid? sid inp fresh h fid
    flow m1 step flow2 res tv dv res2 es hH hres hstep hrun hty htitle hpop
    hes
  exact ⟨hmain.2, dictPop_get_none res "data" dv res2 hpop, hmain.1⟩

/-- Witness for the amended C2 at the third scenario call: the returned
envelope is the create_entry dict without its data key, and the entry list
holds exactly the one entry with data [A, B]. -/
theorem c2_witness :
    (async_configure testRegistry scnCall2.1 "test" (some "f1") "second"
      (some (JsonValue.str "B")) "g3").2 = Except.ok scnFinalDict ∧
    dictGet scnFinalDict "data" = none ∧
    (async_configure testRegistry scnCall2.1 "test" (some "f1") "second"
      (some (JsonValue.str "B")) "g3").1.entries = some [scnEntry] :=
  c2_envelope_data_popped testRegistry scnCall2.1 "test" (some "f1")
    "second" (some (JsonValue.str "B")) "g3" twoStepHandler "f1" scnFlowA
    scnCall2.1 secondStep scnFlowA scnCreateDict (JsonValue.str "T")
    (JsonValue.arr [JsonValue.str "A", JsonValue.str "B"]) scnFinalDict []
    rfl rfl rfl rfl rfl rfl rfl rfl

/-- C10: a freshly constructed manager has entries None (not an empty
list), so listing domains or entries raises TypeError instead of returning
an empty result, and a configure call whose step completes with a
create_entry envelope fails with AttributeError when it tries to append to
the uninitialized entry list. -/
theorem c10_uninitialized_entries {σ : Type}
    (store0 : Option (List EntryDict)) (domain2 : String)
    (H : String → Option (Handler σ)) (domain : String)
    (fid? : Option String) (sid : String) (inp : Option JsonValue)
    (fresh : String) (h : Handler σ) (fid : String) (flow : FlowInstance σ)
    (m1 : ConfigManager σ)
    (step : FlowInstance σ → Option JsonValue →
      Except PyErr (FlowInstance σ × Dict))
    (flow2 : FlowInstance σ) (res : Dict) (tv dv : JsonValue) (res2 : Dict)
    (hH : H domain = some h)
    (hres : resolveFlow h (freshManager store0) fid? fresh domain =
      (fid, flow, m1))
    (hstep : h.steps (String.append "async_step_" sid) = some step)
    (hrun : step flow inp = Except.ok (flow2, res))
    (hty : dictGet res "type" = some (JsonValue.str RESULT_TYPE_CREATE_ENTRY))
    (htitle : dictGet res "title" = some tv)
    (hpop : dictPop res "data" = Except.ok (dv, res2)) :
    (freshManager store0 : ConfigManager σ).entries = none ∧
    async_domains (freshManager store0 : ConfigManager σ) =
      Except.error PyErr.typeError ∧
    async_entries (freshManager store0 : ConfigManager σ) domain2 =
      Except.error PyErr.typeError ∧
    (async_configure H (freshManager store0) domain fid? sid inp fresh).2 =
      Except.error PyErr.attributeError := by
  refine ⟨rfl, rfl, rfl, ?_⟩
  have hm1 : m1.entries = none :=
    (resolveFlow_state_fields h (freshManager store0) fid? fresh domain fid
      flow m1 hres).1
  rw [configure_resolved H (freshManager store0) domain fid? sid inp fresh
    h fid flow m1 hH hres]
  simp only [configureStep, hstep, hrun, interpretResult, hty,
    JsonValue.eqStr, RESULT_TYPE_FORM, RESULT_TYPE_ABORT,
    RESULT_TYPE_CREATE_ENTRY, htitle, hpop, hm1]
  simp

/-- Flow instance and resolved state used by the C10 witness: a fresh flow
of the scenario handler on a fresh manager. -/
def c10M1 : ConfigManager JsonValue :=
  { (freshManager none : ConfigManager JsonValue) with
    progress := [("f1", scnFlow0)] }

/-- Envelope built by the second step of the scenario handler when called
as the first step of a fresh flow with input B: its data is [null, B]
because no init input was stored. -/
def c10CreateDict : Dict :=
  [ ("type", JsonValue.str RESULT_TYPE_CREATE_ENTRY)
  , ("flow_id", JsonValue.str "f1")
  , ("title", JsonValue.str "T")
  , ("data", JsonValue.arr [JsonValue.null, JsonValue.str "B"]) ]

/-- Witness for C10: on a fresh manager, domains and entries raise
TypeError and a flow-completing configure raises AttributeError. -/
theorem c10_witness :
    (freshManager none : ConfigManager JsonValue).entries = none ∧
    async_domains (freshManager none : ConfigManager JsonValue) =
      Except.error PyErr.typeError ∧
    async_entries (freshManager none : ConfigManager JsonValue) "d" =
      Except.error PyErr.typeError ∧
    (async_configure testRegistry (freshManager none) "test" none "second"
      (some (JsonValue.str "B")) "f1").2 =
      Except.error PyErr.attributeError :=
  c10_uninitialized_entries none "d" testRegistry "test" none "second"
    (some (JsonValue.str "B")) "f1" twoStepHandler "f1" scnFlow0 c10M1
    secondStep scnFlow0 c10CreateDict (JsonValue.str "T")
    (JsonValue.arr [JsonValue.null, JsonValue.str "B"]) scnFinalDict
    rfl rfl rfl rfl rfl rfl rfl

/-- Entry with a nested data structure used for the round-trip check. -/
def c1Entry : ConfigEntry :=
  { config_id := "id1"
  , version := 5
  , domain := "test"
  , title := JsonValue.str "Test Title"
  , data := JsonValue.arr
      [JsonValue.str "token", JsonValue.arr [JsonValue.str "abcd"]]
  , source := "user" }

/-- Manager holding one committed entry with nested data, about to save. -/
def c1Manager : ConfigManager JsonValue :=
  { scnM0 with entries := some [c1Entry] }

/-- C1 on the code as written: the save writes the full serialized entry
list to the store, but loading it into a fresh manager raises
AssertionError (the body of async_load begins with a bare assert False)
and leaves the entry list of the fresh manager uninitialized, so the saved
sequence is not reproduced. -/
theorem c1_roundtrip_fails :
    (private_async_save c1Manager).1.store =
      some [ConfigEntry.as_dict c1Entry] ∧
    (private_async_save c1Manager).2 = Except.ok () ∧
    async_load (@freshManager JsonValue (private_async_save c1Manager).1.store) =
      (freshManager (private_async_save c1Manager).1.store,
        Except.error PyErr.assertionError) ∧
    (async_load
      (@freshManager JsonValue (private_async_save c1Manager).1.store)).1.entries =
      none :=
  ⟨rfl, rfl, rfl, rfl⟩

/-- C3 on the code as written: load on a fresh manager with no durable
store raises AssertionError (the bare assert False at the top of
async_load fires before the missing-store check), leaving entries None
instead of the empty list. -/
theorem c3_load_missing_store_raises :
    async_load (@freshManager JsonValue none) =
      (freshManager none, Except.error PyErr.assertionError) ∧
    (async_load (@freshManager JsonValue none)).1.entries = none :=
  ⟨rfl, rfl⟩

/-- Under the timer invariant, a scheduleSave call cancels whatever timer
was armed and arms exactly one fresh timer, leaving every other field of
the manager unchanged. -/
theorem schedule_eq {σ : Type} (m : ConfigManager σ) (h : TimerInv m) :
    async_schedule_save m =
      { m with
        pending := [m.next_timer]
      , sched_save := some m.next_timer
      , next_timer := m.next_timer + 1 } := by
  have hp : (match m.sched_save with
      | none => m.pending
      | some t => List.erase m.pending t) = ([] : List Nat) := by
    cases hs : m.sched_save with
    | none =>
        unfold TimerInv at h; rw [hs] at h; simpa [Option.toList] using h
    | some t =>
        unfold TimerInv at h; rw [hs] at h
        simp only [Option.toList] at h
        rw [h]
        exact List.erase_cons_head t []
  simp only [async_schedule_save, hp]
  simp

/-- The timer invariant bounds the number of armed save timers by one. -/
theorem timerInv_pending_le_one {σ : Type} (m : ConfigManager σ)
    (h : TimerInv m) : m.pending.length ≤ 1 := by
  rw [h]; cases m.sched_save <;> simp [Option.toList]

/-- scheduleSave preserves the timer invariant. -/
theorem timerInv_schedule {σ : Type} (m : ConfigManager σ)
    (h : TimerInv m) : TimerInv (async_schedule_save m) := by
  rw [schedule_eq m h]; rfl

/-- The fields of the manager not owned by the timer machinery are
untouched by a scheduleSave call. -/
theorem schedule_save_fields {σ : Type} (m : ConfigManager σ) :
    (async_schedule_save m).entries = m.entries ∧
    (async_schedule_save m).progress = m.progress ∧
    (async_schedule_save m).store = m.store ∧
    (async_schedule_save m).writes = m.writes :=
  ⟨rfl, rfl, rfl, rfl⟩

/-- Firing a timer preserves the timer invariant: a cancelled handle does
nothing, and the armed handle consumes itself and clears the scheduled
save handle inside the save job. -/
theorem timerInv_fire {σ : Type} (m : ConfigManager σ) (t : Nat)
    (h : TimerInv m) : TimerInv (fireTimer m t).1 := by
  unfold fireTimer
  by_cases hp : t ∈ m.pending
  · have hper : List.erase m.pending t = [] := by
      rw [h] at hp ⊢
      cases hs : m.sched_save with
      | none => rw [hs] at hp; simp [Option.toList] at hp
      | some u =>
          rw [hs] at hp
          simp only [Option.toList, List.mem_singleton] at hp
          simp only [Option.toList]
          rw [hp]
          exact List.erase_cons_head u []
    cases he : m.entries with
    | none => simp [hp, private_async_save, TimerInv, he, hper, Option.toList]
    | some es =>
        simp [hp, private_async_save, TimerInv, he, hper, Option.toList]
  · simpa [hp] using h

/-- Result interpretation preserves the timer invariant: it touches the
timers only through a scheduleSave call. -/
theorem timerInv_interpret {σ : Type} (domain fid : String)
    (flow2 : FlowInstance σ) (res : Dict) (m2 : ConfigManager σ)
    (h : TimerInv m2) : TimerInv (interpretResult domain fid flow2 res m2).1 := by
  unfold interpretResult
  cases dictGet res "type" with
  | none => exact h
  | some ty =>
      by_cases hf : JsonValue.eqStr ty RESULT_TYPE_FORM
      · simpa [hf] using h
      · by_cases ha : JsonValue.eqStr ty RESULT_TYPE_ABORT
        · simpa [hf, ha] using h
        · simp only [hf, ha, if_false, Bool.false_eq_true]
          cases dictGet res "title" with
          | none => exact h
          | some tv =>
              cases dictPop res "data" with
              | error e => exact h
              | ok pr =>
                  cases hes : m2.entries with
                  | none => simp only [hes]; exact h
                  | some es =>
                      simp only [hes]
                      exact timerInv_schedule _ h


/-- Step dispatch preserves the timer invariant. -/
theorem timerInv_configureStep {σ : Type} (h : Handler σ)
    (domain sid : String) (inp : Option JsonValue) (fid : String)
    (flow : FlowInstance σ) (m1 : ConfigManager σ) (hi : TimerInv m1) :
    TimerInv (configureStep h domain sid inp fid flow m1).1 := by
  cases hs : h.steps (String.append "async_step_" sid) with
  | none => simp only [configureStep, hs]; exact hi
  | some step =>
      cases hr : step flow inp with
      | error e => simp only [configureStep, hs, hr]; exact hi
      | ok pr =>
          obtain ⟨flow2, res⟩ := pr
          simp only [configureStep, hs, hr]
          exact timerInv_interpret domain fid flow2 res _ hi

/-- A configure call preserves the timer invariant. -/
theorem timerInv_configure {σ : Type} (H : String → Option (Handler σ))
    (m : ConfigManager σ) (domain : String) (fid? : Option String)
    (sid : String) (inp : Option JsonValue) (fresh : String)
    (hi : TimerInv m) :
    TimerInv (async_configure H m domain fid? sid inp fresh).1 := by
  unfold async_configure
  cases H domain with
  | none => exact hi
  | some handler =>
      have hf := resolveFlow_state_fields handler m fid? fresh domain
        (resolveFlow handler m fid? fresh domain).1
        (resolveFlow handler m fid? fresh domain).2.1
        (resolveFlow handler m fid? fresh domain).2.2 rfl
      have hi1 : TimerInv (resolveFlow handler m fid? fresh domain).2.2 := by
        unfold TimerInv
        rw [hf.2.2.1, hf.2.1]
        exact hi
      exact timerInv_configureStep handler domain sid inp _ _ _ hi1

/-- Every operation preserves the timer invariant. -/
theorem timerInv_applyOp {σ : Type} (H : String → Option (Handler σ))
    (m : ConfigManager σ) (op : MgrOp) (hi : TimerInv m) :
    TimerInv (applyOp H m op) := by
  cases op with
  | schedule => exact timerInv_schedule m hi
  | fire t => exact timerInv_fire m t hi
  | configure d fid sid inp fr => exact timerInv_configure H m d fid sid inp fr hi

/-- The timer invariant holds in every state reachable by a sequence of
operations from a state satisfying it. -/
theorem timerInv_applyOps {σ : Type} (H : String → Option (Handler σ))
    (ops : List MgrOp) (m : ConfigManager σ) (hi : TimerInv m) :
    TimerInv (applyOps H ops m) := by
  induction ops generalizing m with
  | nil => exact hi
  | cons op rest ih =>
      exact ih (applyOp H m op) (timerInv_applyOp H m op hi)

/-- A burst of at least one scheduleSave call performs no durable write,
does not touch the entry list or the store, and ends with exactly one
armed timer, which is the remembered scheduled-save handle. -/
theorem scheduleN_spec {σ : Type} (n : Nat) (m : ConfigManager σ)
    (h : TimerInv m) (hn : 1 ≤ n) :
    (scheduleN n m).writes = m.writes ∧
    (scheduleN n m).entries = m.entries ∧
    (scheduleN n m).store = m.store ∧
    ∃ t, (scheduleN n m).sched_save = some t ∧ (scheduleN n m).pending = [t] := by
  induction n generalizing m with
  | zero => exact absurd hn (by omega)
  | succ k ih =>
      rcases Nat.eq_zero_or_pos k with h0 | hk
      · subst h0
        have heq : scheduleN 1 m = async_schedule_save m := rfl
        rw [heq, schedule_eq m h]
        exact ⟨rfl, rfl, rfl, m.next_timer, rfl, rfl⟩
      · have h1 : TimerInv (async_schedule_save m) := timerInv_schedule m h
        have hrec := ih (async_schedule_save m) h1 hk
        have heq : scheduleN (k + 1) m = scheduleN k (async_schedule_save m) := rfl
        rw [heq]
        refine ⟨?_, ?_, ?_, hrec.2.2.2⟩
        · rw [hrec.1, schedule_eq m h]
        · rw [hrec.2.1, schedule_eq m h]
        · rw [hrec.2.2.1, schedule_eq m h]

/-- C9: every scheduleSave call cancels the previously armed timer before
arming a new one, so in every state reachable from a state satisfying the
timer invariant at most one save timer pends; and a burst of N ≥ 1
scheduleSave calls performs no write by itself, while firing the single
timer it leaves armed performs exactly one durable write holding the
serialized entry list as of the end of the burst, disarming the timer. -/
theorem c9_debounced_single_write {σ : Type}
    (H : String → Option (Handler σ)) (m0 : ConfigManager σ)
    (ops : List MgrOp) (n t : Nat) (es : List ConfigEntry)
    (h0 : TimerInv m0) (hn : 1 ≤ n)
    (hes : (applyOps H ops m0).entries = some es)
    (ht : (scheduleN n (applyOps H ops m0)).sched_save = some t) :
    (applyOps H ops m0).pending.length ≤ 1 ∧
    (scheduleN n (applyOps H ops m0)).writes = (applyOps H ops m0).writes ∧
    (fireTimer (scheduleN n (applyOps H ops m0)) t).1.writes =
      (applyOps H ops m0).writes ++ [List.map ConfigEntry.as_dict es] ∧
    (fireTimer (scheduleN n (applyOps H ops m0)) t).1.pending = [] := by
  have hR : TimerInv (applyOps H ops m0) := timerInv_applyOps H ops m0 h0
  obtain ⟨hw, he, hst, u, hsu, hpu⟩ := scheduleN_spec n (applyOps H ops m0) hR hn
  have htu : t = u := by
    rw [ht] at hsu
    exact Option.some_inj.mp hsu
  subst htu
  have hE : (scheduleN n (applyOps H ops m0)).entries = some es := he.trans hes
  refine ⟨timerInv_pending_le_one _ hR, hw, ?_, ?_⟩
  · unfold fireTimer
    rw [hpu]
    simp only [List.mem_singleton, if_pos rfl, List.erase_cons_head]
    unfold private_async_save
    simp only [hE]
    simp [hw]
  · unfold fireTimer
    rw [hpu]
    simp only [List.mem_singleton, if_pos rfl, List.erase_cons_head]
    unfold private_async_save
    simp only [hE]
    simp

/-- Witness for C9: starting from the state left by the completing
scenario call (one armed save timer), a further scheduleSave call cancels
it and arms timer 1; firing that timer performs the single durable write
of the current entry list. -/
theorem c9_witness :
    (applyOps testRegistry [] scnCall3.1).pending.length ≤ 1 ∧
    (scheduleN 1 (applyOps testRegistry [] scnCall3.1)).writes =
      (applyOps testRegistry [] scnCall3.1).writes ∧
    (fireTimer (scheduleN 1 (applyOps testRegistry [] scnCall3.1)) 1).1.writes =
      (applyOps testRegistry [] scnCall3.1).writes ++
        [List.map ConfigEntry.as_dict [scnEntry]] ∧
    (fireTimer (scheduleN 1 (applyOps testRegistry [] scnCall3.1)) 1).1.pending =
      [] :=
  c9_debounced_single_write testRegistry scnCall3.1 [] 1 1 [scnEntry]
    rfl (Nat.le_refl 1) rfl rfl
